import Mathlib

/-!
Confluence outbound webhook normalizer.

A shallow embedding of `src/handlers/confluence/handler_confluence_out.go`,
`src/util/example_events.go` and `src/handlers/runscope/handler_runscope_out_util.go`.

Conventions of the embedding:

* Go `int64` timestamps are `Int`; they are only compared, never added, so no
  wrap-around can occur.
* Go `[]byte` is a list of byte values.
* `json.Unmarshal` (Go standard library) and `cfg.GetAppIconURL` (configuration
  collaborator) are parameters of the definitions that call them.
* `fmt.Sprintf` with `%v` applied to a string is string concatenation.
* `len(s) > 0` on a Go string compares its length in bytes with zero.
* Calls to the logger have no influence on any returned value and are left out.
* A Go `map[string]T` is an association list read with `List.lookup`.
* `path.Join`, `ioutil.ReadFile` and `config.DocsHandlersDir` are parameters of
  the definitions that call them.
-/

namespace Chathooks

/-! ## Go basics -/

/-- A Go `[]byte`: the list of byte values. -/
abbrev Bytes := List Nat

/-- A non-nil Go `error` value, identified by its text. -/
structure GoError where
  text : String
  deriving DecidableEq, Repr

/-- Go `len(s)` for a string: the length in bytes. -/
def len (s : String) : Nat := s.utf8ByteSize

/-! ## Canonical message model (package `cc`) -/

/-- Modelled from the spec: the type `cc.Field` of the canonical message model
(package `commonchat-go`, section 3 of the spec): title, value and short hint. -/
structure Field where
  Title : String := ""
  Value : String := ""
  Short : Bool := false
  deriving DecidableEq, Repr

/-- Modelled from the spec: the type `cc.Attachment`, an ordered sequence of
fields (section 3 of the spec). -/
structure Attachment where
  Fields : List Field := []
  deriving DecidableEq, Repr

/-- Modelled from the spec: the type `cc.Message` with its activity line, icon
URL and ordered attachments (section 3 of the spec). -/
structure Message where
  Activity : String := ""
  IconURL : String := ""
  Attachments : List Attachment := []
  deriving DecidableEq, Repr

/-- Modelled from the spec: `cc.NewMessage`, "construct an empty message"
(section 4.1). -/
def NewMessage : Message := {}

/-- Modelled from the spec: `cc.NewAttachment`, an attachment without fields. -/
def NewAttachment : Attachment := {}

/-- Modelled from the spec: `Attachment.AddField`, "append a field" to the
attachment; insertion order is preserved (sections 3 and 4.1). -/
def Attachment.AddField (a : Attachment) (f : Field) : Attachment :=
  { a with Fields := a.Fields ++ [f] }

/-- Modelled from the spec: `Message.AddAttachment`, "append an attachment"
(section 4.1). -/
def Message.AddAttachment (m : Message) (a : Attachment) : Message :=
  { m with Attachments := m.Attachments ++ [a] }

/-! ## Confluence payload -/

/-- The Go struct `ConfluencePage`. -/
structure ConfluencePage where
  SpaceKey : String := ""
  ModificationDate : Int := 0
  CreatorKey : String := ""
  CreatorName : String := ""
  LastModifierKey : String := ""
  Self : String := ""
  LastModifierName : String := ""
  Id : Int := 0
  Title : String := ""
  CreationDate : Int := 0
  Version : Int := 0
  deriving DecidableEq, Repr

/-- The Go struct `ConfluenceComment`. -/
structure ConfluenceComment where
  SpaceKey : String := ""
  Parent : ConfluencePage := {}
  ModificationDate : Int := 0
  CreatorKey : String := ""
  CreatorName : String := ""
  LastModifierKey : String := ""
  Self : String := ""
  LastModifierName : String := ""
  Id : Int := 0
  CreationDate : Int := 0
  Version : Int := 0
  deriving DecidableEq, Repr

/-- The Go struct `ConfluenceOutMessage`. -/
structure ConfluenceOutMessage where
  User : String := ""
  UserKey : String := ""
  Timestamp : Int := 0
  Username : String := ""
  Page : ConfluencePage := {}
  Comment : ConfluenceComment := {}
  deriving DecidableEq, Repr

/-- The constant `HandlerKey`. -/
def HandlerKey : String := "confluence"

/-- The constant `DisplayName`. -/
def DisplayName : String := "Confluence"

/-- The constant `MessageDirection`. -/
def MessageDirection : String := "out"

/-- The method `(*ConfluenceOutMessage).IsComment`. -/
def ConfluenceOutMessage.IsComment (msg : ConfluenceOutMessage) : Bool :=
  if msg.Comment.ModificationDate > 0 then true else false

/-- The method `(*ConfluencePage).IsCreated`. -/
def ConfluencePage.IsCreated (page : ConfluencePage) : Bool :=
  if page.ModificationDate > 0 ∧ page.ModificationDate = page.CreationDate then true
  else false

/-- The method `(*ConfluencePage).IsUpdated`. -/
def ConfluencePage.IsUpdated (page : ConfluencePage) : Bool :=
  if page.IsCreated then false else true

/-- The method `(*ConfluenceComment).IsCreated`. -/
def ConfluenceComment.IsCreated (comment : ConfluenceComment) : Bool :=
  if comment.ModificationDate > 0 ∧ comment.ModificationDate = comment.CreationDate then true
  else false

/-- The method `(*ConfluenceComment).IsUpdated`. -/
def ConfluenceComment.IsUpdated (comment : ConfluenceComment) : Bool :=
  if comment.IsCreated then false else true

/-- The behaviour of `json.Unmarshal(bytes, &msg)` on a zero-valued `msg`: the
value of `msg` afterwards and the error, if any.  The decoder may report an
error and still have stored part of the payload. -/
abbrev Unmarshal := Bytes → ConfluenceOutMessage × Option GoError

/-- The function `ConfluenceOutMessageFromBytes`. -/
def ConfluenceOutMessageFromBytes (jsonUnmarshal : Unmarshal) (bytes : Bytes) :
    ConfluenceOutMessage × Option GoError :=
  let (msg, err) := jsonUnmarshal bytes
  let msg := if msg.IsComment then { msg with Page := msg.Comment.Parent } else msg
  (msg, err)

/-- The configuration collaborator `config.Configuration`, reduced to the one
method the handler calls: `GetAppIconURL` returns the text of the URL (what
`iconURL.String()` yields) or an error. -/
structure Configuration where
  GetAppIconURL : String → Except GoError String

/-- The function `Normalize`. -/
def Normalize (jsonUnmarshal : Unmarshal) (cfg : Configuration) (bytes : Bytes) :
    Message × Option GoError :=
  let ccMsg := NewMessage
  let ccMsg :=
    match cfg.GetAppIconURL HandlerKey with
    | .ok iconURL => { ccMsg with IconURL := iconURL }
    | .error _ => ccMsg
  let (src, err) := ConfluenceOutMessageFromBytes jsonUnmarshal bytes
  match err with
  | some e => (ccMsg, some e)
  | none =>
    let ccMsg :=
      if !src.IsComment then
        if src.Page.IsCreated then
          { ccMsg with Activity := src.Page.CreatorName ++ " created page" }
        else
          { ccMsg with Activity := src.Page.CreatorName ++ " updated page" }
      else
        if src.Comment.IsCreated then
          { ccMsg with Activity := src.Comment.CreatorName ++ " commented on page" }
        else
          { ccMsg with Activity := src.Comment.CreatorName ++ " updated comment on page" }
    let attachment := NewAttachment
    let attachment :=
      if len src.Page.Title > 0 ∧ len src.Page.Self > 0 then
        attachment.AddField
          { Title := "Page"
            Value := "[" ++ src.Page.Title ++ "](" ++ src.Page.Self ++ ")"
            Short := true }
      else attachment
    let attachment :=
      if len src.Page.SpaceKey > 0 then
        let field : Field := { Title := "Space", Short := true }
        let field :=
          if src.IsComment then { field with Value := src.Comment.Parent.SpaceKey }
          else { field with Value := src.Page.SpaceKey }
        attachment.AddField field
      else attachment
    (ccMsg.AddAttachment attachment, none)

/-- The page `src.Page` stands for once `ConfluenceOutMessageFromBytes` has
returned, in terms of the decoded payload `d`: the parent page of the comment
for a comment event, the page of the payload otherwise. -/
def effectivePage (d : ConfluenceOutMessage) : ConfluencePage :=
  if d.IsComment then d.Comment.Parent else d.Page

/-! ## Request handler -/

/-- The constant `fasthttp.StatusOK`, the status of a fresh response. -/
def StatusOK : Nat := 200

/-- The constant `fasthttp.StatusNotAcceptable`. -/
def StatusNotAcceptable : Nat := 406

/-- The constant `fasthttp.StatusBadGateway`. -/
def StatusBadGateway : Nat := 502

/-- The part of `fasthttp.RequestCtx` the handler touches: the form values of
the request and the status code of the response. -/
structure RequestCtx where
  FormValue : String → Bytes
  StatusCode : Nat := StatusOK

/-- The delivery collaborator `adapters.Adapter`: for a message, the error of
the delivery attempt, if any. -/
structure Adapter where
  deliver : Message → Option GoError

/-- The effects of handling one request: the request context as the handler
leaves it, and the messages handed to the adapter, oldest first. -/
structure Handled where
  ctx : RequestCtx
  delivered : List Message

/-- The Go struct `Handler`, together with the JSON decoder in use. -/
structure Handler where
  jsonUnmarshal : Unmarshal
  Config : Configuration
  Adapter : Adapter

/-- Modelled from the spec: `util.SendWebhook`, whose source is not part of the
development.  Section 4.3 (d), (e) and section 6 of the spec: the message is
passed to the adapter for delivery, once and without retry, and a delivery error
is reported with the bad-gateway status. -/
def SendWebhook (st : Handled) (adapter : Adapter) (ccMsg : Message) : Handled :=
  let st := { st with delivered := st.delivered ++ [ccMsg] }
  match adapter.deliver ccMsg with
  | none => st
  | some _ => { st with ctx := { st.ctx with StatusCode := StatusBadGateway } }

/-- The method `(*Handler).HandleFastHTTP`, started on a request context with
no delivery made yet. -/
def Handler.HandleFastHTTP (h : Handler) (ctx : RequestCtx) : Handled :=
  let st : Handled := { ctx := ctx, delivered := [] }
  let (ccMsg, err) := Normalize h.jsonUnmarshal h.Config (ctx.FormValue "payload")
  match err with
  | some _ => { st with ctx := { st.ctx with StatusCode := StatusNotAcceptable } }
  | none => SendWebhook st h.Adapter ccMsg

/-! ## Concrete payloads -/

/-- The bytes of an ASCII text. -/
def asciiBytes (s : String) : Bytes := s.toList.map Char.toNat

/-- The error `encoding/json` reports for a payload that is not JSON. -/
def syntaxError : GoError := ⟨"invalid character looking for beginning of value"⟩

/-- A decoder known at one payload only: it decodes `payload` to `msg`, as
`encoding/json` does for the payloads below, and rejects every other input. -/
def jsonFixture (payload : Bytes) (msg : ConfluenceOutMessage) : Unmarshal :=
  fun bytes => if bytes = payload then (msg, none) else ({}, some syntaxError)

/-- A configuration with an icon URL for every handler key. -/
def iconConfig : Configuration := ⟨fun _ => .ok "https://example.com/icon.png"⟩

/-- A configuration without icon URLs. -/
def noIconConfig : Configuration := ⟨fun _ => .error ⟨"app icon not configured"⟩⟩

/-- Payload
`{"comment":{"creatorName":"bob","creationDate":1420000000000,"modificationDate":1420000000000}}`. -/
def commentCreatedBytes : Bytes := asciiBytes
  "\x7b\"comment\":\x7b\"creatorName\":\"bob\",\"creationDate\":1420000000000,\"modificationDate\":1420000000000\x7d\x7d"

/-- The decoded form of `commentCreatedBytes`. -/
def commentCreatedMsg : ConfluenceOutMessage :=
  { Comment :=
      { CreatorName := "bob", CreationDate := 1420000000000,
        ModificationDate := 1420000000000 } }

/-- Payload
`{"page":{"creatorName":"alice"},"comment":{"creatorName":"bob","creationDate":-1,"modificationDate":-1}}`. -/
def commentNegativeBytes : Bytes := asciiBytes
  "\x7b\"page\":\x7b\"creatorName\":\"alice\"\x7d,\"comment\":\x7b\"creatorName\":\"bob\",\"creationDate\":-1,\"modificationDate\":-1\x7d\x7d"

/-- The decoded form of `commentNegativeBytes`. -/
def commentNegativeMsg : ConfluenceOutMessage :=
  { Page := { CreatorName := "alice" }
    Comment := { CreatorName := "bob", CreationDate := -1, ModificationDate := -1 } }

/-- Payload
`{"comment":{"creatorName":"bob","creationDate":1420000000000,"modificationDate":1420000000001}}`. -/
def commentUpdatedBytes : Bytes := asciiBytes
  "\x7b\"comment\":\x7b\"creatorName\":\"bob\",\"creationDate\":1420000000000,\"modificationDate\":1420000000001\x7d\x7d"

/-- The decoded form of `commentUpdatedBytes`. -/
def commentUpdatedMsg : ConfluenceOutMessage :=
  { Comment :=
      { CreatorName := "bob", CreationDate := 1420000000000,
        ModificationDate := 1420000000001 } }

/-- Payload
`{"page":{"creatorName":"alice"},"comment":{"creatorName":"bob","creationDate":-2,"modificationDate":-1}}`. -/
def commentNegativeUpdatedBytes : Bytes := asciiBytes
  "\x7b\"page\":\x7b\"creatorName\":\"alice\"\x7d,\"comment\":\x7b\"creatorName\":\"bob\",\"creationDate\":-2,\"modificationDate\":-1\x7d\x7d"

/-- The decoded form of `commentNegativeUpdatedBytes`. -/
def commentNegativeUpdatedMsg : ConfluenceOutMessage :=
  { Page := { CreatorName := "alice" }
    Comment := { CreatorName := "bob", CreationDate := -2, ModificationDate := -1 } }

/-- Payload
`{"page":{"creatorName":"alice"},"comment":{"creatorName":"bob","creationDate":-5,"modificationDate":3}}`. -/
def commentEarlyCreationBytes : Bytes := asciiBytes
  "\x7b\"page\":\x7b\"creatorName\":\"alice\"\x7d,\"comment\":\x7b\"creatorName\":\"bob\",\"creationDate\":-5,\"modificationDate\":3\x7d\x7d"

/-- The decoded form of `commentEarlyCreationBytes`. -/
def commentEarlyCreationMsg : ConfluenceOutMessage :=
  { Page := { CreatorName := "alice" }
    Comment := { CreatorName := "bob", CreationDate := -5, ModificationDate := 3 } }

/-- Payload
`{"page":{"spaceKey":"DEV","modificationDate":1471926079631,"creatorName":"alice","self":"https://wiki/home","title":"Home","creationDate":1471926079631}}`. -/
def pageCreatedBytes : Bytes := asciiBytes
  "\x7b\"page\":\x7b\"spaceKey\":\"DEV\",\"modificationDate\":1471926079631,\"creatorName\":\"alice\",\"self\":\"https://wiki/home\",\"title\":\"Home\",\"creationDate\":1471926079631\x7d\x7d"

/-- The decoded form of `pageCreatedBytes`. -/
def pageCreatedMsg : ConfluenceOutMessage :=
  { Page :=
      { SpaceKey := "DEV", ModificationDate := 1471926079631, CreatorName := "alice",
        Self := "https://wiki/home", Title := "Home", CreationDate := 1471926079631 } }

/-- Payload
`{"page":{"creatorName":"alice","creationDate":-1,"modificationDate":-1}}`. -/
def pageNegativeBytes : Bytes := asciiBytes
  "\x7b\"page\":\x7b\"creatorName\":\"alice\",\"creationDate\":-1,\"modificationDate\":-1\x7d\x7d"

/-- The decoded form of `pageNegativeBytes`. -/
def pageNegativeMsg : ConfluenceOutMessage :=
  { Page := { CreatorName := "alice", CreationDate := -1, ModificationDate := -1 } }

/-- Payload
`{"page":{"spaceKey":"DEV","modificationDate":1471926079631,"creatorName":"alice","title":"Home","creationDate":1471926079631}}`,
a page without a `self` link. -/
def pageNoSelfBytes : Bytes := asciiBytes
  "\x7b\"page\":\x7b\"spaceKey\":\"DEV\",\"modificationDate\":1471926079631,\"creatorName\":\"alice\",\"title\":\"Home\",\"creationDate\":1471926079631\x7d\x7d"

/-- The decoded form of `pageNoSelfBytes`. -/
def pageNoSelfMsg : ConfluenceOutMessage :=
  { Page :=
      { SpaceKey := "DEV", ModificationDate := 1471926079631, CreatorName := "alice",
        Title := "Home", CreationDate := 1471926079631 } }

/-- Payload
`{"page":{"spaceKey":"OLD"},"comment":{"spaceKey":"OWN","parent":{"spaceKey":"DEV","self":"https://wiki/home","title":"Home"},"modificationDate":1471926079631,"creatorName":"bob","creationDate":1471926079631}}`:
a comment whose own space key differs from the one of its parent page. -/
def commentSpaceBytes : Bytes := asciiBytes
  "\x7b\"page\":\x7b\"spaceKey\":\"OLD\"\x7d,\"comment\":\x7b\"spaceKey\":\"OWN\",\"parent\":\x7b\"spaceKey\":\"DEV\",\"self\":\"https://wiki/home\",\"title\":\"Home\"\x7d,\"modificationDate\":1471926079631,\"creatorName\":\"bob\",\"creationDate\":1471926079631\x7d\x7d"

/-- The decoded form of `commentSpaceBytes`. -/
def commentSpaceMsg : ConfluenceOutMessage :=
  { Page := { SpaceKey := "OLD" }
    Comment :=
      { SpaceKey := "OWN"
        Parent := { SpaceKey := "DEV", Self := "https://wiki/home", Title := "Home" }
        ModificationDate := 1471926079631, CreatorName := "bob",
        CreationDate := 1471926079631 } }

/-- An adapter whose deliveries succeed. -/
def okAdapter : Adapter := ⟨fun _ => none⟩

/-- A request context carrying `payload` in the form value `payload`. -/
def requestWith (payload : Bytes) : RequestCtx :=
  { FormValue := fun key => if key = "payload" then payload else [] }

/-- Payload `{}`: a JSON object without any field; it decodes to the zero value. -/
def emptyObjectBytes : Bytes := asciiBytes "\x7b\x7d"

/-- The decoded form of `emptyObjectBytes`. -/
def emptyObjectMsg : ConfluenceOutMessage := {}

/-- A decoder that stores part of a payload and then reports an error, as
`encoding/json` does for a field of the wrong type that follows valid ones. -/
def partialUnmarshal : Unmarshal :=
  fun _ => (commentSpaceMsg, some ⟨"json: cannot unmarshal string into Go value"⟩)

/-! ## Example data (package `util`) -/

/-- The constant `DefaultExtension`. -/
def DefaultExtension : String := "json"

/-- The Go struct `ExampleSource`. -/
structure ExampleSource where
  FileExtension : String := ""
  EventSlugs : List String := []
  deriving DecidableEq, Repr

/-- The Go struct `ExampleData`; the map `Data` is an association list, read
with `List.lookup`. -/
structure ExampleData where
  Data : List (String × ExampleSource) := []
  deriving DecidableEq, Repr

/-- The function `NewExampleData`: the table `json.Unmarshal` decodes from the
literal of `ExampleDataRaw`, and its error (none, the literal is valid JSON).
Keys of the literal that are no field of `ExampleSource` (`event_slugs_`,
`event_slugs__`) are skipped by the decoder.  Each entry is written as
`⟨FileExtension, EventSlugs⟩`, with the empty extension where the literal has
none. -/
def NewExampleData : ExampleData × Option GoError :=
  ({ Data :=
      [("appsignal", ⟨"json", ["marker", "exception", "performance"]⟩),
       ("apteligent", ⟨"", ["alert", "alert-open", "alert-close"]⟩),
       ("bugsnag", ⟨"", ["exception-stack-trace-single", "exception-stack-trace-multi"]⟩),
       ("confluence", ⟨"", ["page-created", "comment-created"]⟩),
       ("deskdotcom", ⟨"", ["formatted1", "formatted2"]⟩),
       ("gosquared", ⟨"", ["site-traffic", "smart-group", "live-chat"]⟩),
       ("heroku", ⟨"txt", ["build"]⟩),
       ("librato", ⟨"", ["2", "alert-triggered", "alert-cleared"]⟩),
       ("marketo", ⟨"", ["formatted1", "formatted2", "demo1"]⟩),
       ("opsgenie", ⟨"", ["remove-tags", "assign-ownership", "take-ownership", "escalate",
          "custom-action-test-action"]⟩),
       ("papertrail", ⟨"", ["notifications-array-len-1", "notifications-array"]⟩),
       ("pingdom", ⟨"", ["http-check"]⟩),
       ("semaphore", ⟨"", ["build", "deploy"]⟩),
       ("slack", ⟨"", ["attachment", "link-emoji"]⟩),
       ("statuspage", ⟨"", ["incident-updates", "incident-updates-create",
          "component-updates"]⟩),
       ("userlike", ⟨"", ["chat-widget_config", "offline-message_receive", "operator_away",
          "operator_back", "operator_offline", "operator_online"]⟩)] },
   none)

/-- The method `(*ExampleData).BuildFilename`; `fmt.Sprintf` with `%s` applied
to strings is concatenation. -/
def ExampleData.BuildFilename (data : ExampleData) (handlerKey : String)
    (eventSlug : String) : String :=
  let ext := DefaultExtension
  let ext :=
    match data.Data.lookup handlerKey with
    | some src => if len src.FileExtension > 0 then src.FileExtension else ext
    | none => ext
  "event-example_" ++ eventSlug ++ "." ++ ext

/-- What `ExampleMessageBytes` takes from outside the package: the directory
`config.DocsHandlersDir()`, the function `path.Join` and the file reader
`ioutil.ReadFile`, which returns the bytes read and the error, if any. -/
structure Files where
  DocsHandlersDir : String
  Join : List String → String
  ReadFile : String → Bytes × Option GoError

/-- The method `(*ExampleData).ExampleMessageBytes`. -/
def ExampleData.ExampleMessageBytes (data : ExampleData) (fs : Files)
    (handlerKey : String) (eventSlug : String) : Bytes × Option GoError :=
  let filepath := fs.Join [fs.DocsHandlersDir, handlerKey,
    data.BuildFilename handlerKey eventSlug]
  fs.ReadFile filepath

/-! ## Runscope example message (package `runscope`) -/

/-- Modelled from the spec: the constant `HandlerKey` of package `runscope`,
which is declared in a file that is not part of the development.  Section 3 of
the spec: the routing key is the stable lowercase identifier of the vendor
integration, as `confluence` is for Confluence. -/
def Runscope.HandlerKey : String := "runscope"

/-- The function `ExampleMessage` of package `runscope`.  The package's
`Normalize` is declared in a file that is not part of the development and is
the parameter `normalize`. -/
def Runscope.ExampleMessage (fs : Files) (normalize : Bytes → Message × Option GoError)
    (data : ExampleData) : Message × Option GoError :=
  let (bytes, err) := data.ExampleMessageBytes fs Runscope.HandlerKey "notification"
  match err with
  | some e => ({}, some e)
  | none => normalize bytes

/-- A file system with the single file `docs/handlers/runscope/event-example_notification.json`,
holding `pageCreatedBytes`. -/
def oneFile : Files :=
  { DocsHandlersDir := "docs/handlers"
    Join := fun parts => "/".intercalate parts
    ReadFile := fun path =>
      if path = "docs/handlers/runscope/event-example_notification.json" then
        (pageCreatedBytes, none)
      else ([], some ⟨"open " ++ path ++ ": no such file or directory"⟩) }

/-- A file system without files. -/
def noFiles : Files :=
  { DocsHandlersDir := "docs/handlers"
    Join := fun parts => "/".intercalate parts
    ReadFile := fun path => ([], some ⟨"open " ++ path ++ ": no such file or directory"⟩) }

/-- A normalizer for the examples: the Confluence one, with the page fixture's
decoder and the icon configuration. -/
def sampleNormalize : Bytes → Message × Option GoError :=
  Normalize (jsonFixture pageCreatedBytes pageCreatedMsg) iconConfig

/-- A normalizer that rejects every input. -/
def rejectingNormalize : Bytes → Message × Option GoError :=
  fun _ => ({ Activity := "rejected" }, some ⟨"rejected"⟩)

/-! ## Auxiliary lemmas -/

theorem jsonFixture_self (payload : Bytes) (msg : ConfluenceOutMessage) :
    jsonFixture payload msg payload = (msg, none) := by
  simp [jsonFixture]

theorem len_pos_iff (s : String) : 0 < len s ↔ s ≠ "" := by
  rcases s with ⟨l⟩
  cases l with
  | nil => simp [len, String.utf8ByteSize, String.utf8ByteSize.go]
  | cons c cs =>
    have hc := Char.utf8Size_pos c
    have hne : (⟨c :: cs⟩ : String) ≠ "" := by
      intro h
      have := congrArg String.data h
      simp at this
    simp only [len, String.utf8ByteSize, String.utf8ByteSize.go]
    constructor
    · intro _; exact hne
    · intro _; omega

theorem IsComment_iff (d : ConfluenceOutMessage) :
    d.IsComment = true ↔ 0 < d.Comment.ModificationDate := by
  simp [ConfluenceOutMessage.IsComment]

theorem IsComment_setPage (d : ConfluenceOutMessage) (p : ConfluencePage) :
    ConfluenceOutMessage.IsComment { d with Page := p } = d.IsComment := rfl

theorem FromBytes_eq (u : Unmarshal) (b : Bytes) :
    ConfluenceOutMessageFromBytes u b =
      (if (u b).1.IsComment then { (u b).1 with Page := (u b).1.Comment.Parent } else (u b).1,
        (u b).2) := by
  rcases h : u b with ⟨d, e⟩
  simp [ConfluenceOutMessageFromBytes, h]

theorem FromBytes_page (u : Unmarshal) (b : Bytes) :
    (ConfluenceOutMessageFromBytes u b).1.Page = effectivePage (u b).1 := by
  rw [FromBytes_eq]
  by_cases hc : (u b).1.IsComment = true <;> simp [effectivePage, hc]

theorem Normalize_snd (u : Unmarshal) (cfg : Configuration) (b : Bytes) :
    (Normalize u cfg b).2 = (u b).2 := by
  rcases h : u b with ⟨d, e⟩
  cases e <;> simp [Normalize, FromBytes_eq, h]

theorem Normalize_activity (u : Unmarshal) (cfg : Configuration) (b : Bytes)
    (hok : (u b).2 = none) :
    (Normalize u cfg b).1.Activity =
      if (u b).1.IsComment then
        if (u b).1.Comment.IsCreated then (u b).1.Comment.CreatorName ++ " commented on page"
        else (u b).1.Comment.CreatorName ++ " updated comment on page"
      else
        if (u b).1.Page.IsCreated then (u b).1.Page.CreatorName ++ " created page"
        else (u b).1.Page.CreatorName ++ " updated page" := by
  rcases h : u b with ⟨d, e⟩
  rw [h] at hok
  simp only at hok
  subst hok
  by_cases hc : d.IsComment = true
  · by_cases hk : d.Comment.IsCreated = true <;>
      simp [Normalize, FromBytes_eq, h, hc, hk, IsComment_setPage, Message.AddAttachment]
  · by_cases hk : d.Page.IsCreated = true <;>
      simp [Normalize, FromBytes_eq, h, hc, hk, Message.AddAttachment]

theorem iconMessage_attachments (cfg : Configuration) :
    (match cfg.GetAppIconURL HandlerKey with
      | Except.ok iconURL => ({ NewMessage with IconURL := iconURL } : Message)
      | Except.error _ => NewMessage).Attachments = [] := by
  cases cfg.GetAppIconURL HandlerKey <;> rfl

theorem iconMessage_activity (cfg : Configuration) :
    (match cfg.GetAppIconURL HandlerKey with
      | Except.ok iconURL => ({ NewMessage with IconURL := iconURL } : Message)
      | Except.error _ => NewMessage).Activity = "" := by
  cases cfg.GetAppIconURL HandlerKey <;> rfl

theorem Normalize_attachments (u : Unmarshal) (cfg : Configuration) (b : Bytes)
    (hok : (u b).2 = none) :
    (Normalize u cfg b).1.Attachments =
      [⟨(if (effectivePage (u b).1).Title ≠ "" ∧ (effectivePage (u b).1).Self ≠ "" then
            [⟨"Page", "[" ++ (effectivePage (u b).1).Title ++ "](" ++
              (effectivePage (u b).1).Self ++ ")", true⟩]
          else []) ++
        (if (effectivePage (u b).1).SpaceKey ≠ "" then
            [⟨"Space", (effectivePage (u b).1).SpaceKey, true⟩]
          else [])⟩] := by
  rcases h : u b with ⟨d, e⟩
  rw [h] at hok
  simp only at hok
  subst hok
  have hmsg := iconMessage_attachments cfg
  by_cases hc : d.IsComment = true
  · by_cases ht : d.Comment.Parent.Title ≠ "" ∧ d.Comment.Parent.Self ≠ "" <;>
    by_cases hs : d.Comment.Parent.SpaceKey ≠ "" <;>
      simp [Normalize, FromBytes_eq, h, hc, ht, hs, IsComment_setPage, Message.AddAttachment,
        Attachment.AddField, NewAttachment, effectivePage, len_pos_iff, hmsg] <;>
      split <;> rfl
  · by_cases ht : d.Page.Title ≠ "" ∧ d.Page.Self ≠ "" <;>
    by_cases hs : d.Page.SpaceKey ≠ "" <;>
      simp [Normalize, FromBytes_eq, h, hc, ht, hs, Message.AddAttachment,
        Attachment.AddField, NewAttachment, effectivePage, len_pos_iff, hmsg] <;>
      split <;> rfl

theorem Normalize_of_error (u : Unmarshal) (cfg : Configuration) (b : Bytes) (e : GoError)
    (herr : (u b).2 = some e) :
    (Normalize u cfg b).1.Activity = "" ∧ (Normalize u cfg b).1.Attachments = [] := by
  rcases h : u b with ⟨d, e'⟩
  rw [h] at herr
  simp only at herr
  subst herr
  simp [Normalize, FromBytes_eq, h, iconMessage_attachments, iconMessage_activity]

theorem append_ne_empty (a b : String) (h : a ≠ "") : a ++ b ≠ "" := by
  intro hab
  have hl := congrArg String.length hab
  rw [String.length_append] at hl
  have ha : a.length = 0 := by
    have : ("" : String).length = 0 := rfl
    omega
  exact h (by
    rcases a with ⟨l⟩
    have hnil : l = [] := List.length_eq_zero.mp ha
    subst hnil
    rfl)

theorem pageValue_ne_empty (t s : String) : "[" ++ t ++ "](" ++ s ++ ")" ≠ "" := by
  have h1 : "[" ++ t ≠ "" := append_ne_empty _ _ (by decide)
  exact append_ne_empty _ _ (append_ne_empty _ _ (append_ne_empty _ _ h1))

/-! ## Classification of events -/

/-- C1 (as amended): for a payload that deserializes successfully and whose
`comment.modificationDate` equals `comment.creationDate` with that common value
positive, `Normalize` returns no error and the activity is the comment's
`creatorName` followed by `" commented on page"`. -/
theorem Normalize_comment_created (u : Unmarshal) (cfg : Configuration) (b : Bytes)
    (hok : (u b).2 = none)
    (heq : (u b).1.Comment.ModificationDate = (u b).1.Comment.CreationDate)
    (hpos : 0 < (u b).1.Comment.ModificationDate) :
    (Normalize u cfg b).2 = none ∧
      (Normalize u cfg b).1.Activity =
        (u b).1.Comment.CreatorName ++ " commented on page" := by
  refine ⟨by rw [Normalize_snd, hok], ?_⟩
  have hc : (u b).1.IsComment = true := (IsComment_iff _).2 hpos
  have hk : (u b).1.Comment.IsCreated = true := by
    simp [ConfluenceComment.IsCreated, hpos, heq.symm]
  rw [Normalize_activity u cfg b hok]
  simp [hc, hk]

/-- C1 witness: the fixture with both comment timestamps `1420000000000`. -/
theorem Normalize_comment_created_witness :
    (jsonFixture commentCreatedBytes commentCreatedMsg commentCreatedBytes).2 = none ∧
      (Normalize (jsonFixture commentCreatedBytes commentCreatedMsg) iconConfig
          commentCreatedBytes).2 = none ∧
      (Normalize (jsonFixture commentCreatedBytes commentCreatedMsg) iconConfig
          commentCreatedBytes).1.Activity = "bob commented on page" := by
  have h := Normalize_comment_created (jsonFixture commentCreatedBytes commentCreatedMsg)
    iconConfig commentCreatedBytes (by rw [jsonFixture_self])
    (by rw [jsonFixture_self]; decide) (by rw [jsonFixture_self]; decide)
  rw [jsonFixture_self] at h
  exact ⟨by rw [jsonFixture_self], h.1, h.2.trans (by decide)⟩

/-- C1 counterexample: the payload decodes without error, both comment
timestamps are `-1` (equal and non-zero), and `Normalize` reports a page update
by the page's creator instead of a comment by the comment's creator. -/
theorem Normalize_comment_created_nonzero_counterexample :
    jsonFixture commentNegativeBytes commentNegativeMsg commentNegativeBytes =
        (commentNegativeMsg, none) ∧
      commentNegativeMsg.Comment.ModificationDate = commentNegativeMsg.Comment.CreationDate ∧
      commentNegativeMsg.Comment.ModificationDate ≠ 0 ∧
      Normalize (jsonFixture commentNegativeBytes commentNegativeMsg) iconConfig
          commentNegativeBytes =
        (⟨"alice updated page", "https://example.com/icon.png", [⟨[]⟩]⟩, none) ∧
      "alice updated page" ≠ commentNegativeMsg.Comment.CreatorName ++ " commented on page" := by
  refine ⟨jsonFixture_self _ _, by decide, by decide, ?_, by decide⟩
  rw [Normalize, ConfluenceOutMessageFromBytes, jsonFixture_self]
  decide

/-- C2 (as amended): for a payload that deserializes successfully with a
non-zero `comment.creationDate` and a positive `comment.modificationDate`
strictly greater than `comment.creationDate`, `Normalize` returns no error and
the activity is the comment's `creatorName` followed by
`" updated comment on page"`. -/
theorem Normalize_comment_updated (u : Unmarshal) (cfg : Configuration) (b : Bytes)
    (hok : (u b).2 = none)
    (_hne : (u b).1.Comment.CreationDate ≠ 0)
    (hpos : 0 < (u b).1.Comment.ModificationDate)
    (hlt : (u b).1.Comment.CreationDate < (u b).1.Comment.ModificationDate) :
    (Normalize u cfg b).2 = none ∧
      (Normalize u cfg b).1.Activity =
        (u b).1.Comment.CreatorName ++ " updated comment on page" := by
  refine ⟨by rw [Normalize_snd, hok], ?_⟩
  have hc : (u b).1.IsComment = true := (IsComment_iff _).2 hpos
  have hk : (u b).1.Comment.IsCreated = false := by
    simp only [ConfluenceComment.IsCreated, ite_eq_right_iff]
    intro h
    omega
  rw [Normalize_activity u cfg b hok]
  simp [hc, hk]

/-- C2 witness: a comment created at `-5` and modified at `3`, a creation
timestamp that is non-zero without being positive. -/
theorem Normalize_comment_updated_witness :
    (jsonFixture commentEarlyCreationBytes commentEarlyCreationMsg
        commentEarlyCreationBytes).2 = none ∧
      commentEarlyCreationMsg.Comment.CreationDate ≠ 0 ∧
      0 < commentEarlyCreationMsg.Comment.ModificationDate ∧
      commentEarlyCreationMsg.Comment.CreationDate <
        commentEarlyCreationMsg.Comment.ModificationDate ∧
      (Normalize (jsonFixture commentEarlyCreationBytes commentEarlyCreationMsg) iconConfig
          commentEarlyCreationBytes).2 = none ∧
      (Normalize (jsonFixture commentEarlyCreationBytes commentEarlyCreationMsg) iconConfig
          commentEarlyCreationBytes).1.Activity = "bob updated comment on page" := by
  have h := Normalize_comment_updated
    (jsonFixture commentEarlyCreationBytes commentEarlyCreationMsg)
    iconConfig commentEarlyCreationBytes (by rw [jsonFixture_self])
    (by rw [jsonFixture_self]; decide) (by rw [jsonFixture_self]; decide)
    (by rw [jsonFixture_self]; decide)
  rw [jsonFixture_self] at h
  exact ⟨by rw [jsonFixture_self], by decide, by decide, by decide, h.1,
    h.2.trans (by decide)⟩

/-- C2 counterexample: the payload decodes without error, the comment's
`creationDate` is `-2` (non-zero) and its `modificationDate` is `-1` (strictly
greater), and `Normalize` reports a page update by the page's creator. -/
theorem Normalize_comment_updated_nonzero_counterexample :
    jsonFixture commentNegativeUpdatedBytes commentNegativeUpdatedMsg
          commentNegativeUpdatedBytes =
        (commentNegativeUpdatedMsg, none) ∧
      commentNegativeUpdatedMsg.Comment.CreationDate ≠ 0 ∧
      commentNegativeUpdatedMsg.Comment.CreationDate <
        commentNegativeUpdatedMsg.Comment.ModificationDate ∧
      Normalize (jsonFixture commentNegativeUpdatedBytes commentNegativeUpdatedMsg) iconConfig
          commentNegativeUpdatedBytes =
        (⟨"alice updated page", "https://example.com/icon.png", [⟨[]⟩]⟩, none) ∧
      "alice updated page" ≠
        commentNegativeUpdatedMsg.Comment.CreatorName ++ " updated comment on page" := by
  refine ⟨jsonFixture_self _ _, by decide, by decide, ?_, by decide⟩
  rw [Normalize, ConfluenceOutMessageFromBytes, jsonFixture_self]
  decide

/-- C3 (as amended): for a payload that deserializes successfully and whose
`comment.modificationDate` is zero, the activity is the page's `creatorName`
followed by `" created page"` when `page.modificationDate` equals
`page.creationDate` and both are positive, and followed by `" updated page"`
otherwise. -/
theorem Normalize_page_activity (u : Unmarshal) (cfg : Configuration) (b : Bytes)
    (hok : (u b).2 = none)
    (hzero : (u b).1.Comment.ModificationDate = 0) :
    (Normalize u cfg b).1.Activity =
      if (u b).1.Page.ModificationDate = (u b).1.Page.CreationDate ∧
          0 < (u b).1.Page.ModificationDate ∧ 0 < (u b).1.Page.CreationDate then
        (u b).1.Page.CreatorName ++ " created page"
      else (u b).1.Page.CreatorName ++ " updated page" := by
  have hc : (u b).1.IsComment = false := by
    simp [ConfluenceOutMessage.IsComment, hzero]
  rw [Normalize_activity u cfg b hok]
  simp only [hc, Bool.false_eq_true, if_false, ConfluencePage.IsCreated]
  by_cases h1 : (u b).1.Page.ModificationDate = (u b).1.Page.CreationDate
  · by_cases h2 : 0 < (u b).1.Page.ModificationDate
    · have h3 : 0 < (u b).1.Page.CreationDate := h1 ▸ h2
      simp [h1, h3]
    · have h3 : ¬ 0 < (u b).1.Page.CreationDate := h1 ▸ h2
      simp [h1, h3]
  · simp [h1]

/-- C3 witness: a page whose two timestamps are both `1471926079631`. -/
theorem Normalize_page_activity_witness :
    (jsonFixture pageCreatedBytes pageCreatedMsg pageCreatedBytes).2 = none ∧
      (jsonFixture pageCreatedBytes pageCreatedMsg
          pageCreatedBytes).1.Comment.ModificationDate = 0 ∧
      (Normalize (jsonFixture pageCreatedBytes pageCreatedMsg) iconConfig
          pageCreatedBytes).1.Activity = "alice created page" := by
  have h := Normalize_page_activity (jsonFixture pageCreatedBytes pageCreatedMsg)
    iconConfig pageCreatedBytes (by rw [jsonFixture_self]) (by rw [jsonFixture_self]; decide)
  rw [jsonFixture_self] at h
  exact ⟨by rw [jsonFixture_self], by rw [jsonFixture_self]; decide, h.trans (by decide)⟩

/-- C3 counterexample: the payload decodes without error, is not a comment event
(`comment.modificationDate` is zero), both page timestamps are `-1` (equal and
non-zero), and the activity is `" updated page"`, not `" created page"`. -/
theorem Normalize_page_activity_nonzero_counterexample :
    jsonFixture pageNegativeBytes pageNegativeMsg pageNegativeBytes =
        (pageNegativeMsg, none) ∧
      pageNegativeMsg.Comment.ModificationDate = 0 ∧
      pageNegativeMsg.Page.ModificationDate = pageNegativeMsg.Page.CreationDate ∧
      pageNegativeMsg.Page.ModificationDate ≠ 0 ∧
      pageNegativeMsg.Page.CreationDate ≠ 0 ∧
      Normalize (jsonFixture pageNegativeBytes pageNegativeMsg) iconConfig pageNegativeBytes =
        (⟨"alice updated page", "https://example.com/icon.png", [⟨[]⟩]⟩, none) ∧
      "alice updated page" ≠ pageNegativeMsg.Page.CreatorName ++ " created page" := by
  refine ⟨jsonFixture_self _ _, by decide, by decide, by decide, by decide, ?_, by decide⟩
  rw [Normalize, ConfluenceOutMessageFromBytes, jsonFixture_self]
  decide

/-- C4 (as amended): `IsComment` is true if and only if the comment's
modification timestamp is positive; two messages with the same
`comment.modificationDate` are classified alike whatever their other fields;
and a message whose `comment.modificationDate` is zero is a page event. -/
theorem IsComment_iff_modificationDate_pos (msg other : ConfluenceOutMessage) :
    (msg.IsComment = true ↔ 0 < msg.Comment.ModificationDate) ∧
      (other.Comment.ModificationDate = msg.Comment.ModificationDate →
        other.IsComment = msg.IsComment) ∧
      (msg.Comment.ModificationDate = 0 → msg.IsComment = false) := by
  refine ⟨IsComment_iff msg, ?_, ?_⟩
  · intro h
    simp only [ConfluenceOutMessage.IsComment, h]
  · intro h
    simp [ConfluenceOutMessage.IsComment, h]

/-- C4 witness: the comment fixture is a comment event, as is every message with
the same modification timestamp; the page fixture, with the timestamp absent,
is a page event. -/
theorem IsComment_iff_modificationDate_pos_witness :
    commentSpaceMsg.IsComment = true ∧
      ({ commentCreatedMsg with
          Comment := { commentCreatedMsg.Comment with ModificationDate := 1471926079631 } } :
        ConfluenceOutMessage).IsComment = commentSpaceMsg.IsComment ∧
      pageCreatedMsg.IsComment = false :=
  ⟨(IsComment_iff_modificationDate_pos commentSpaceMsg commentCreatedMsg).1.2 (by decide),
    (IsComment_iff_modificationDate_pos commentSpaceMsg
      { commentCreatedMsg with
        Comment := { commentCreatedMsg.Comment with ModificationDate := 1471926079631 } }).2.1
      (by decide),
    (IsComment_iff_modificationDate_pos pageCreatedMsg commentCreatedMsg).2.2 (by decide)⟩

/-- C4 counterexample: a message whose comment modification timestamp is `-1`,
present and non-zero, for which `IsComment` is false. -/
theorem IsComment_nonzero_counterexample :
    commentNegativeMsg.Comment.ModificationDate ≠ 0 ∧ commentNegativeMsg.IsComment = false := by
  decide

/-- C5 (as amended): for a page and for a comment, `IsCreated` is true if and
only if `modificationDate` equals `creationDate` and both are positive, and
`IsUpdated` is the negation of `IsCreated`. -/
theorem IsCreated_iff_equal_pos (page : ConfluencePage) (comment : ConfluenceComment) :
    (page.IsCreated = true ↔
        page.ModificationDate = page.CreationDate ∧
          0 < page.ModificationDate ∧ 0 < page.CreationDate) ∧
      page.IsUpdated = !page.IsCreated ∧
      (comment.IsCreated = true ↔
        comment.ModificationDate = comment.CreationDate ∧
          0 < comment.ModificationDate ∧ 0 < comment.CreationDate) ∧
      comment.IsUpdated = !comment.IsCreated := by
  refine ⟨?_, ?_, ?_, ?_⟩
  · simp only [ConfluencePage.IsCreated, ite_eq_left_iff, not_and, Bool.false_eq_true,
      imp_false, not_forall, not_not]
    constructor
    · rintro ⟨h1, h2⟩
      exact ⟨h2, h1, h2 ▸ h1⟩
    · rintro ⟨h1, h2, _⟩
      exact ⟨h2, h1⟩
  · cases h : page.IsCreated <;> simp [ConfluencePage.IsUpdated, h]
  · simp only [ConfluenceComment.IsCreated, ite_eq_left_iff, not_and, Bool.false_eq_true,
      imp_false, not_forall, not_not]
    constructor
    · rintro ⟨h1, h2⟩
      exact ⟨h2, h1, h2 ▸ h1⟩
    · rintro ⟨h1, h2, _⟩
      exact ⟨h2, h1⟩
  · cases h : comment.IsCreated <;> simp [ConfluenceComment.IsUpdated, h]

/-- C5 counterexample: a page and a comment whose `modificationDate` and
`creationDate` are both `-1`, equal and non-zero, for which `IsCreated` is
false. -/
theorem IsCreated_nonzero_counterexample :
    (pageNegativeMsg.Page.ModificationDate = pageNegativeMsg.Page.CreationDate ∧
        pageNegativeMsg.Page.ModificationDate ≠ 0 ∧ pageNegativeMsg.Page.CreationDate ≠ 0 ∧
        pageNegativeMsg.Page.IsCreated = false) ∧
      (commentNegativeMsg.Comment.ModificationDate = commentNegativeMsg.Comment.CreationDate ∧
        commentNegativeMsg.Comment.ModificationDate ≠ 0 ∧
        commentNegativeMsg.Comment.CreationDate ≠ 0 ∧
        commentNegativeMsg.Comment.IsCreated = false) := by
  decide

/-! ## Fields of the attachment -/

/-- C6: for a payload that deserializes successfully, `Normalize` builds one
attachment; it has a field titled "Page" if and only if the effective page has a
non-empty title and a non-empty self link, and a field titled "Space" if and
only if the effective page's `spaceKey` is non-empty; a page payload without a
self link has no "Page" field and still a "Space" field when `spaceKey` is
present; and when both fields are present "Page" comes before "Space". -/
theorem Normalize_page_space_fields (u : Unmarshal) (cfg : Configuration) (b : Bytes)
    (hok : (u b).2 = none) :
    ∃ att, (Normalize u cfg b).1.Attachments = [att] ∧
      ((∃ f ∈ att.Fields, f.Title = "Page") ↔
        (effectivePage (u b).1).Title ≠ "" ∧ (effectivePage (u b).1).Self ≠ "") ∧
      ((∃ f ∈ att.Fields, f.Title = "Space") ↔ (effectivePage (u b).1).SpaceKey ≠ "") ∧
      ((u b).1.IsComment = false → (u b).1.Page.Self = "" →
        (¬ ∃ f ∈ att.Fields, f.Title = "Page") ∧
          ((u b).1.Page.SpaceKey ≠ "" → ∃ f ∈ att.Fields, f.Title = "Space")) ∧
      ((effectivePage (u b).1).Title ≠ "" → (effectivePage (u b).1).Self ≠ "" →
        (effectivePage (u b).1).SpaceKey ≠ "" →
        att.Fields.map Field.Title = ["Page", "Space"]) := by
  refine ⟨_, Normalize_attachments u cfg b hok, ?_, ?_, ?_, ?_⟩
  · by_cases ht : (effectivePage (u b).1).Title ≠ "" ∧ (effectivePage (u b).1).Self ≠ "" <;>
    by_cases hs : (effectivePage (u b).1).SpaceKey ≠ "" <;>
      simp [ht, hs]
  · by_cases ht : (effectivePage (u b).1).Title ≠ "" ∧ (effectivePage (u b).1).Self ≠ "" <;>
    by_cases hs : (effectivePage (u b).1).SpaceKey ≠ "" <;>
      simp [ht, hs]
  · intro hc hself
    have hp : effectivePage (u b).1 = (u b).1.Page := by simp [effectivePage, hc]
    rw [hp]
    by_cases hs : (u b).1.Page.SpaceKey ≠ "" <;> simp [hself, hs]
  · intro ht hself hs
    simp [ht, hself, hs]

/-- C6 witness: a page without a self link, with title and space key. -/
theorem Normalize_page_space_fields_witness :
    (jsonFixture pageNoSelfBytes pageNoSelfMsg pageNoSelfBytes).2 = none ∧
      (Normalize (jsonFixture pageNoSelfBytes pageNoSelfMsg) iconConfig
          pageNoSelfBytes).1.Attachments = [⟨[⟨"Space", "DEV", true⟩]⟩] ∧
      ∃ att, (Normalize (jsonFixture pageNoSelfBytes pageNoSelfMsg) iconConfig
            pageNoSelfBytes).1.Attachments = [att] ∧
        (¬ ∃ f ∈ att.Fields, f.Title = "Page") ∧ ∃ f ∈ att.Fields, f.Title = "Space" := by
  refine ⟨by rw [jsonFixture_self], ?_, ?_⟩
  · rw [Normalize, ConfluenceOutMessageFromBytes, jsonFixture_self]
    decide
  · obtain ⟨att, hatt, _, _, h, _⟩ :=
      Normalize_page_space_fields (jsonFixture pageNoSelfBytes pageNoSelfMsg) iconConfig
        pageNoSelfBytes (by rw [jsonFixture_self])
    rw [jsonFixture_self] at h
    exact ⟨att, hatt, (h (by decide) (by decide)).1, (h (by decide) (by decide)).2 (by decide)⟩

/-- C7: for a payload that deserializes successfully, the fields titled "Space"
of the attachment are: for a comment event, the single field whose value is the
`spaceKey` of the comment's parent page when that key is non-empty, and none
otherwise, whatever the comment's own `spaceKey`; for a page event, the single
field whose value is the page's `spaceKey` when that key is non-empty, and none
otherwise. -/
theorem Normalize_space_field_value (u : Unmarshal) (cfg : Configuration) (b : Bytes)
    (hok : (u b).2 = none) :
    ∃ att, (Normalize u cfg b).1.Attachments = [att] ∧
      att.Fields.filter (fun f => f.Title = "Space") =
        if (u b).1.IsComment = true then
          if (u b).1.Comment.Parent.SpaceKey ≠ "" then
            [⟨"Space", (u b).1.Comment.Parent.SpaceKey, true⟩]
          else []
        else
          if (u b).1.Page.SpaceKey ≠ "" then [⟨"Space", (u b).1.Page.SpaceKey, true⟩]
          else [] := by
  refine ⟨_, Normalize_attachments u cfg b hok, ?_⟩
  have hp : effectivePage (u b).1 =
      if (u b).1.IsComment = true then (u b).1.Comment.Parent else (u b).1.Page := rfl
  by_cases hc : (u b).1.IsComment = true
  · rw [hp]
    simp only [hc, if_true]
    by_cases ht : (u b).1.Comment.Parent.Title ≠ "" ∧ (u b).1.Comment.Parent.Self ≠ "" <;>
    by_cases hs : (u b).1.Comment.Parent.SpaceKey ≠ "" <;>
      simp [ht, hs, List.filter]
  · rw [hp]
    simp only [hc, if_false]
    by_cases ht : (u b).1.Page.Title ≠ "" ∧ (u b).1.Page.Self ≠ "" <;>
    by_cases hs : (u b).1.Page.SpaceKey ≠ "" <;>
      simp [ht, hs, List.filter]

/-- C7 witness: a comment whose own space key is "OWN" on a parent page in space
"DEV": the "Space" field shows "DEV". -/
theorem Normalize_space_field_value_witness :
    (jsonFixture commentSpaceBytes commentSpaceMsg commentSpaceBytes).2 = none ∧
      commentSpaceMsg.Comment.SpaceKey = "OWN" ∧
      ∃ att, (Normalize (jsonFixture commentSpaceBytes commentSpaceMsg) iconConfig
            commentSpaceBytes).1.Attachments = [att] ∧
        att.Fields.filter (fun f => f.Title = "Space") = [⟨"Space", "DEV", true⟩] := by
  refine ⟨by rw [jsonFixture_self], rfl, ?_⟩
  obtain ⟨att, hatt, h⟩ :=
    Normalize_space_field_value (jsonFixture commentSpaceBytes commentSpaceMsg) iconConfig
      commentSpaceBytes (by rw [jsonFixture_self])
  rw [jsonFixture_self] at h
  exact ⟨att, hatt, h.trans (by decide)⟩

/-- C8: for every input, every field of every attachment of the message
`Normalize` returns has a non-empty title and a non-empty value. -/
theorem Normalize_fields_nonempty (u : Unmarshal) (cfg : Configuration) (b : Bytes) :
    ∀ att ∈ (Normalize u cfg b).1.Attachments, ∀ f ∈ att.Fields,
      f.Title ≠ "" ∧ f.Value ≠ "" := by
  intro att hatt f hf
  cases herr : (u b).2 with
  | some e =>
    rw [(Normalize_of_error u cfg b e herr).2] at hatt
    simp at hatt
  | none =>
    rw [Normalize_attachments u cfg b herr] at hatt
    simp only [List.mem_singleton] at hatt
    subst hatt
    simp only [List.mem_append] at hf
    rcases hf with hf | hf
    · split at hf
      · simp only [List.mem_singleton] at hf
        subst hf
        exact ⟨by show "Page" ≠ ""; decide, pageValue_ne_empty _ _⟩
      · simp at hf
    · split at hf
      · rename_i hs
        simp only [List.mem_singleton] at hf
        subst hf
        exact ⟨by show "Space" ≠ ""; decide, hs⟩
      · simp at hf

/-- C8 witness: the page fixture yields a "Page" and a "Space" field, both with
non-empty title and value. -/
theorem Normalize_fields_nonempty_witness :
    (Normalize (jsonFixture pageCreatedBytes pageCreatedMsg) iconConfig
        pageCreatedBytes).1.Attachments =
      [⟨[⟨"Page", "[Home](https://wiki/home)", true⟩, ⟨"Space", "DEV", true⟩]⟩] ∧
    ("Page" ≠ "" ∧ "[Home](https://wiki/home)" ≠ "") ∧ ("Space" ≠ "" ∧ "DEV" ≠ "") := by
  have hatt : (Normalize (jsonFixture pageCreatedBytes pageCreatedMsg) iconConfig
      pageCreatedBytes).1.Attachments =
      [⟨[⟨"Page", "[Home](https://wiki/home)", true⟩, ⟨"Space", "DEV", true⟩]⟩] := by
    rw [Normalize, ConfluenceOutMessageFromBytes, jsonFixture_self]
    decide
  have h := Normalize_fields_nonempty (jsonFixture pageCreatedBytes pageCreatedMsg) iconConfig
    pageCreatedBytes ⟨[⟨"Page", "[Home](https://wiki/home)", true⟩, ⟨"Space", "DEV", true⟩]⟩
    (by rw [hatt]; exact List.mem_singleton.mpr rfl)
  exact ⟨hatt, h ⟨"Page", "[Home](https://wiki/home)", true⟩ (by simp),
    h ⟨"Space", "DEV", true⟩ (by simp)⟩

/-! ## Errors and delivery -/

/-- C9: `Normalize` returns an error if and only if deserializing the bytes
fails; the error it returns is the one `ConfluenceOutMessageFromBytes` returns,
which is the one of the JSON decoder; and the message returned with an error has
an empty activity and no attachments. -/
theorem Normalize_error_iff (u : Unmarshal) (cfg : Configuration) (b : Bytes) :
    ((Normalize u cfg b).2 ≠ none ↔ (ConfluenceOutMessageFromBytes u b).2 ≠ none) ∧
      (Normalize u cfg b).2 = (ConfluenceOutMessageFromBytes u b).2 ∧
      (ConfluenceOutMessageFromBytes u b).2 = (u b).2 ∧
      ((Normalize u cfg b).2 ≠ none →
        (Normalize u cfg b).1.Activity = "" ∧ (Normalize u cfg b).1.Attachments = []) := by
  have h1 : (ConfluenceOutMessageFromBytes u b).2 = (u b).2 := by rw [FromBytes_eq]
  have h2 : (Normalize u cfg b).2 = (ConfluenceOutMessageFromBytes u b).2 := by
    rw [Normalize_snd, h1]
  refine ⟨by rw [h2], h2, h1, ?_⟩
  intro herr
  rw [Normalize_snd] at herr
  cases he : (u b).2 with
  | none => exact absurd he herr
  | some e => exact Normalize_of_error u cfg b e he

/-- C9 witness: on the empty input the decoder fails, and `Normalize` returns
that error with a message that carries the icon URL only. -/
theorem Normalize_error_iff_witness :
    (jsonFixture pageCreatedBytes pageCreatedMsg []).2 = some syntaxError ∧
      Normalize (jsonFixture pageCreatedBytes pageCreatedMsg) iconConfig [] =
        (⟨"", "https://example.com/icon.png", []⟩, some syntaxError) ∧
      (Normalize (jsonFixture pageCreatedBytes pageCreatedMsg) iconConfig []).1.Activity = "" ∧
      (Normalize (jsonFixture pageCreatedBytes pageCreatedMsg) iconConfig []).1.Attachments
        = [] := by
  have hdec : jsonFixture pageCreatedBytes pageCreatedMsg [] = ({}, some syntaxError) := by
    decide
  have hn : Normalize (jsonFixture pageCreatedBytes pageCreatedMsg) iconConfig [] =
      (⟨"", "https://example.com/icon.png", []⟩, some syntaxError) := by
    rw [Normalize, ConfluenceOutMessageFromBytes, hdec]
    decide
  have h := (Normalize_error_iff (jsonFixture pageCreatedBytes pageCreatedMsg) iconConfig
    []).2.2.2 (by rw [hn]; decide)
  exact ⟨by rw [hdec], hn, h.1, h.2⟩

/-- C10: when `Normalize` returns an error the handler hands no message to the
adapter and sets the status to 406; when `Normalize` returns no error it hands
exactly the message `Normalize` returned to the adapter, once; in every case at
most one delivery is attempted. -/
theorem HandleFastHTTP_delivery (h : Handler) (ctx : RequestCtx) :
    ((Normalize h.jsonUnmarshal h.Config (ctx.FormValue "payload")).2 ≠ none →
        (h.HandleFastHTTP ctx).delivered = [] ∧
          (h.HandleFastHTTP ctx).ctx.StatusCode = 406) ∧
      ((Normalize h.jsonUnmarshal h.Config (ctx.FormValue "payload")).2 = none →
        (h.HandleFastHTTP ctx).delivered =
          [(Normalize h.jsonUnmarshal h.Config (ctx.FormValue "payload")).1]) ∧
      (h.HandleFastHTTP ctx).delivered.length ≤ 1 := by
  rcases hn : Normalize h.jsonUnmarshal h.Config (ctx.FormValue "payload") with ⟨m, e⟩
  cases e with
  | some e =>
    simp [Handler.HandleFastHTTP, hn, StatusNotAcceptable]
  | none =>
    cases hd : h.Adapter.deliver m <;>
      simp [Handler.HandleFastHTTP, hn, SendWebhook, hd]

/-- C10 witness: a request with an empty payload is answered with 406 and
nothing is delivered; a request with the page fixture leads to one delivery, of
the message `Normalize` returns. -/
theorem HandleFastHTTP_delivery_witness :
    ((Handler.HandleFastHTTP ⟨jsonFixture pageCreatedBytes pageCreatedMsg, iconConfig, okAdapter⟩
          (requestWith [])).delivered = [] ∧
        (Handler.HandleFastHTTP ⟨jsonFixture pageCreatedBytes pageCreatedMsg, iconConfig, okAdapter⟩
          (requestWith [])).ctx.StatusCode = 406) ∧
      (Handler.HandleFastHTTP ⟨jsonFixture pageCreatedBytes pageCreatedMsg, iconConfig, okAdapter⟩
          (requestWith pageCreatedBytes)).delivered =
        [⟨"alice created page", "https://example.com/icon.png",
          [⟨[⟨"Page", "[Home](https://wiki/home)", true⟩, ⟨"Space", "DEV", true⟩]⟩]⟩] := by
  have hdec : jsonFixture pageCreatedBytes pageCreatedMsg [] = ({}, some syntaxError) := by
    decide
  have hbad : Normalize (jsonFixture pageCreatedBytes pageCreatedMsg) iconConfig [] =
      (⟨"", "https://example.com/icon.png", []⟩, some syntaxError) := by
    rw [Normalize, ConfluenceOutMessageFromBytes, hdec]
    decide
  have hgood : Normalize (jsonFixture pageCreatedBytes pageCreatedMsg) iconConfig
      pageCreatedBytes =
      (⟨"alice created page", "https://example.com/icon.png",
          [⟨[⟨"Page", "[Home](https://wiki/home)", true⟩, ⟨"Space", "DEV", true⟩]⟩]⟩, none) := by
    rw [Normalize, ConfluenceOutMessageFromBytes, jsonFixture_self]
    decide
  have hp (p : Bytes) : (requestWith p).FormValue "payload" = p := by
    simp [requestWith]
  have h1 := (HandleFastHTTP_delivery
    ⟨jsonFixture pageCreatedBytes pageCreatedMsg, iconConfig, okAdapter⟩ (requestWith [])).1
    (by simp only [hp, hbad]; decide)
  have h2 := (HandleFastHTTP_delivery
    ⟨jsonFixture pageCreatedBytes pageCreatedMsg, iconConfig, okAdapter⟩
    (requestWith pageCreatedBytes)).2.1 (by simp only [hp, hgood])
  simp only [hp, hgood] at h2
  exact ⟨h1, h2⟩

/-! ## Further lemmas -/

theorem append_ne_empty_right (a b : String) (h : b ≠ "") : a ++ b ≠ "" := by
  intro hab
  have hl := congrArg String.length hab
  rw [String.length_append] at hl
  have hb : b.length = 0 := by
    have : ("" : String).length = 0 := rfl
    omega
  exact h (by
    rcases b with ⟨l⟩
    have hnil : l = [] := List.length_eq_zero.mp hb
    subst hnil
    rfl)

theorem Normalize_iconURL (u : Unmarshal) (cfg : Configuration) (b : Bytes) :
    (Normalize u cfg b).1.IconURL =
      match cfg.GetAppIconURL HandlerKey with
      | .ok iconURL => iconURL
      | .error _ => "" := by
  rcases h : u b with ⟨d, e⟩
  cases e with
  | some e =>
    cases hi : cfg.GetAppIconURL HandlerKey <;>
      simp [Normalize, FromBytes_eq, h, hi, NewMessage]
  | none =>
    cases hi : cfg.GetAppIconURL HandlerKey <;>
      simp only [Normalize, FromBytes_eq, h, hi, NewMessage, Message.AddAttachment] <;>
      (repeat' split) <;> rfl

theorem BuildFilename_shape (data : ExampleData) (handlerKey : String) :
    ∃ ext, ∀ eventSlug,
      data.BuildFilename handlerKey eventSlug = "event-example_" ++ eventSlug ++ "." ++ ext :=
  ⟨_, fun _ => rfl⟩

/-! ## Incomplete payloads, activity and determinism -/

/-- C11 (as amended): for every request whose payload deserializes successfully,
also when the actor name is missing, `Normalize` returns no error; with an empty
`creatorName` (on the page, or on the comment for a comment event) the activity
is the classification text with nothing in front of it; and the handler does not
treat the request like an unparseable one but passes the message on for
delivery. -/
theorem Normalize_incomplete_no_error (h : Handler) (ctx : RequestCtx)
    (hok : (h.jsonUnmarshal (ctx.FormValue "payload")).2 = none) :
    (Normalize h.jsonUnmarshal h.Config (ctx.FormValue "payload")).2 = none ∧
      ((h.jsonUnmarshal (ctx.FormValue "payload")).1.IsComment = false →
        (h.jsonUnmarshal (ctx.FormValue "payload")).1.Page.CreatorName = "" →
        (Normalize h.jsonUnmarshal h.Config (ctx.FormValue "payload")).1.Activity =
            " created page" ∨
          (Normalize h.jsonUnmarshal h.Config (ctx.FormValue "payload")).1.Activity =
            " updated page") ∧
      ((h.jsonUnmarshal (ctx.FormValue "payload")).1.IsComment = true →
        (h.jsonUnmarshal (ctx.FormValue "payload")).1.Comment.CreatorName = "" →
        (Normalize h.jsonUnmarshal h.Config (ctx.FormValue "payload")).1.Activity =
            " commented on page" ∨
          (Normalize h.jsonUnmarshal h.Config (ctx.FormValue "payload")).1.Activity =
            " updated comment on page") ∧
      h.HandleFastHTTP ctx =
        SendWebhook ⟨ctx, []⟩ h.Adapter
          (Normalize h.jsonUnmarshal h.Config (ctx.FormValue "payload")).1 := by
  have hn : (Normalize h.jsonUnmarshal h.Config (ctx.FormValue "payload")).2 = none := by
    rw [Normalize_snd, hok]
  refine ⟨hn, ?_, ?_, ?_⟩
  · intro hc hname
    rw [Normalize_activity _ _ _ hok, hc, hname]
    cases (h.jsonUnmarshal (ctx.FormValue "payload")).1.Page.IsCreated <;> simp
  · intro hc hname
    rw [Normalize_activity _ _ _ hok, hc, hname]
    cases (h.jsonUnmarshal (ctx.FormValue "payload")).1.Comment.IsCreated <;> simp
  · rcases hr : Normalize h.jsonUnmarshal h.Config (ctx.FormValue "payload") with ⟨m, e⟩
    rw [hr] at hn
    simp only at hn
    subst hn
    simp [Handler.HandleFastHTTP, hr]

/-- C11 witness: a request whose payload is the empty JSON object is passed on
with the activity " updated page". -/
theorem Normalize_incomplete_no_error_witness :
    (jsonFixture emptyObjectBytes emptyObjectMsg
        ((requestWith emptyObjectBytes).FormValue "payload")).2 = none ∧
      (Normalize (jsonFixture emptyObjectBytes emptyObjectMsg) iconConfig
        ((requestWith emptyObjectBytes).FormValue "payload")).2 = none ∧
      (Handler.HandleFastHTTP ⟨jsonFixture emptyObjectBytes emptyObjectMsg, iconConfig, okAdapter⟩
          (requestWith emptyObjectBytes)).delivered =
        [⟨" updated page", "https://example.com/icon.png", [⟨[]⟩]⟩] := by
  have hp : (requestWith emptyObjectBytes).FormValue "payload" = emptyObjectBytes := by
    simp [requestWith]
  have hok : (jsonFixture emptyObjectBytes emptyObjectMsg
      ((requestWith emptyObjectBytes).FormValue "payload")).2 = none := by
    rw [hp, jsonFixture_self]
  have hn : Normalize (jsonFixture emptyObjectBytes emptyObjectMsg) iconConfig
      emptyObjectBytes = (⟨" updated page", "https://example.com/icon.png", [⟨[]⟩]⟩, none) := by
    rw [Normalize, ConfluenceOutMessageFromBytes, jsonFixture_self]
    decide
  have h := Normalize_incomplete_no_error
    ⟨jsonFixture emptyObjectBytes emptyObjectMsg, iconConfig, okAdapter⟩
    (requestWith emptyObjectBytes) hok
  refine ⟨hok, h.1, ?_⟩
  rw [h.2.2.2]
  simp only [hp, hn]
  rfl

/-- C11 counterexample: the empty JSON object decodes without error, its page
has no `creatorName`, and `Normalize` returns the message " updated page"
without an error. -/
theorem Normalize_incomplete_counterexample :
    jsonFixture emptyObjectBytes emptyObjectMsg emptyObjectBytes = (emptyObjectMsg, none) ∧
      emptyObjectMsg.IsComment = false ∧
      emptyObjectMsg.Page.CreatorName = "" ∧
      Normalize (jsonFixture emptyObjectBytes emptyObjectMsg) iconConfig emptyObjectBytes =
        (⟨" updated page", "https://example.com/icon.png", [⟨[]⟩]⟩, none) ∧
      (Normalize (jsonFixture emptyObjectBytes emptyObjectMsg) iconConfig
        emptyObjectBytes).2 = none := by
  have hn : Normalize (jsonFixture emptyObjectBytes emptyObjectMsg) iconConfig
      emptyObjectBytes = (⟨" updated page", "https://example.com/icon.png", [⟨[]⟩]⟩, none) := by
    rw [Normalize, ConfluenceOutMessageFromBytes, jsonFixture_self]
    decide
  exact ⟨jsonFixture_self _ _, by decide, by decide, hn, by rw [hn]⟩

/-- C12: for every payload on which `Normalize` returns no error, the activity
of the returned message is not empty. -/
theorem Normalize_activity_nonempty (u : Unmarshal) (cfg : Configuration) (b : Bytes)
    (hok : (Normalize u cfg b).2 = none) :
    (Normalize u cfg b).1.Activity ≠ "" := by
  rw [Normalize_snd] at hok
  rw [Normalize_activity u cfg b hok]
  split <;> split <;> exact append_ne_empty_right _ _ (by decide)

/-- C12 witness: even for the empty JSON object the activity, " updated page",
is not empty. -/
theorem Normalize_activity_nonempty_witness :
    (Normalize (jsonFixture emptyObjectBytes emptyObjectMsg) iconConfig
        emptyObjectBytes).2 = none ∧
      (Normalize (jsonFixture emptyObjectBytes emptyObjectMsg) iconConfig
        emptyObjectBytes).1.Activity ≠ "" := by
  have hok : (Normalize (jsonFixture emptyObjectBytes emptyObjectMsg) iconConfig
      emptyObjectBytes).2 = none := by
    rw [Normalize_snd, jsonFixture_self]
  exact ⟨hok, Normalize_activity_nonempty _ _ _ hok⟩

/-- C13: the result of `Normalize`, message and error, is determined by the
outcome of the icon lookup for the handler key and by what the decoder returns
for the bytes: two invocations that agree on these two return the same message
(activity, icon URL, attachments and fields in the same order) and the same
error; in particular two invocations on identical inputs do. -/
theorem Normalize_deterministic (u u' : Unmarshal) (cfg cfg' : Configuration) (b b' : Bytes)
    (hicon : (cfg.GetAppIconURL HandlerKey).toOption = (cfg'.GetAppIconURL HandlerKey).toOption)
    (hdec : u b = u' b') :
    Normalize u cfg b = Normalize u' cfg' b' := by
  have hmsg : (match cfg.GetAppIconURL HandlerKey with
        | Except.ok iconURL => ({ NewMessage with IconURL := iconURL } : Message)
        | Except.error _ => NewMessage) =
      (match cfg'.GetAppIconURL HandlerKey with
        | Except.ok iconURL => ({ NewMessage with IconURL := iconURL } : Message)
        | Except.error _ => NewMessage) := by
    cases h1 : cfg.GetAppIconURL HandlerKey <;> cases h2 : cfg'.GetAppIconURL HandlerKey <;>
      simp_all [Except.toOption]
  simp only [Normalize, ConfluenceOutMessageFromBytes, hdec]
  simp only [hmsg]

/-- C13 witness: two configurations that agree on the Confluence icon and two
decoders that agree on the payload give the same result. -/
theorem Normalize_deterministic_witness :
    Normalize (jsonFixture pageCreatedBytes pageCreatedMsg) iconConfig pageCreatedBytes =
      Normalize (fun _ => (pageCreatedMsg, none))
        ⟨fun key =>
          if key = "confluence" then .ok "https://example.com/icon.png"
          else .error ⟨"app icon not configured"⟩⟩ [] :=
  Normalize_deterministic _ _ _ _ _ _ (by decide) (by rw [jsonFixture_self])

/-- C14: for every payload on which `Normalize` returns no error, the message
has exactly one attachment, that attachment has at most two fields, and it has
no field when the effective page has neither title and self link nor a
`spaceKey`. -/
theorem Normalize_one_attachment (u : Unmarshal) (cfg : Configuration) (b : Bytes)
    (hok : (Normalize u cfg b).2 = none) :
    ∃ att, (Normalize u cfg b).1.Attachments = [att] ∧
      att.Fields.length ≤ 2 ∧
      (¬ ((effectivePage (u b).1).Title ≠ "" ∧ (effectivePage (u b).1).Self ≠ "") →
        (effectivePage (u b).1).SpaceKey = "" → att.Fields = []) := by
  rw [Normalize_snd] at hok
  refine ⟨_, Normalize_attachments u cfg b hok, ?_, ?_⟩
  · by_cases ht : (effectivePage (u b).1).Title ≠ "" ∧ (effectivePage (u b).1).Self ≠ "" <;>
    by_cases hs : (effectivePage (u b).1).SpaceKey ≠ "" <;>
      simp [ht, hs]
  · intro ht hs
    simp [ht, hs]

/-- C14 witness: the empty JSON object gives one attachment without fields. -/
theorem Normalize_one_attachment_witness :
    (Normalize (jsonFixture emptyObjectBytes emptyObjectMsg) iconConfig
        emptyObjectBytes).2 = none ∧
      ∃ att, (Normalize (jsonFixture emptyObjectBytes emptyObjectMsg) iconConfig
          emptyObjectBytes).1.Attachments = [att] ∧ att.Fields = [] := by
  have hok : (Normalize (jsonFixture emptyObjectBytes emptyObjectMsg) iconConfig
      emptyObjectBytes).2 = none := by
    rw [Normalize_snd, jsonFixture_self]
  obtain ⟨att, hatt, _, h⟩ := Normalize_one_attachment _ _ _ hok
  rw [jsonFixture_self] at h
  exact ⟨hok, att, hatt, h (by decide) (by decide)⟩

/-! ## Example data -/

/-- C15: `BuildFilename` returns `"event-example_" ++ eventSlug ++ "." ++ ext`,
where `ext` is the file extension of the table entry of the routing key when
there is such an entry and its extension is not empty, and `"json"` when the
entry has no extension or the key has no entry; with the built-in table
`heroku` gets the extension `txt` and `confluence` the extension `json`. -/
theorem BuildFilename_extension (data : ExampleData) (handlerKey eventSlug : String) :
    (∀ src, data.Data.lookup handlerKey = some src → src.FileExtension ≠ "" →
        data.BuildFilename handlerKey eventSlug =
          "event-example_" ++ eventSlug ++ "." ++ src.FileExtension) ∧
      (∀ src, data.Data.lookup handlerKey = some src → src.FileExtension = "" →
        data.BuildFilename handlerKey eventSlug =
          "event-example_" ++ eventSlug ++ "." ++ "json") ∧
      (data.Data.lookup handlerKey = none →
        data.BuildFilename handlerKey eventSlug =
          "event-example_" ++ eventSlug ++ "." ++ "json") ∧
      NewExampleData.1.BuildFilename "heroku" eventSlug =
        "event-example_" ++ eventSlug ++ "." ++ "txt" ∧
      NewExampleData.1.BuildFilename "confluence" eventSlug =
        "event-example_" ++ eventSlug ++ "." ++ "json" := by
  refine ⟨?_, ?_, ?_, ?_, ?_⟩
  · intro src hsrc hext
    simp [ExampleData.BuildFilename, hsrc, len_pos_iff, hext]
  · intro src hsrc hext
    simp [ExampleData.BuildFilename, hsrc, len_pos_iff, hext, DefaultExtension]
  · intro hnone
    simp [ExampleData.BuildFilename, hnone, DefaultExtension]
  · have hl : NewExampleData.1.Data.lookup "heroku" = some ⟨"txt", ["build"]⟩ := by decide
    have hlen : len "txt" > 0 := by decide
    simp [ExampleData.BuildFilename, hl, hlen]
  · have hl : NewExampleData.1.Data.lookup "confluence" =
        some ⟨"", ["page-created", "comment-created"]⟩ := by decide
    have hlen : ¬ len "" > 0 := by decide
    simp [ExampleData.BuildFilename, hl, hlen, DefaultExtension]

/-- C15 witness: the file names of the Heroku build example, of the Confluence
page example, and of a key without entry, with the built-in table. -/
theorem BuildFilename_extension_witness :
    NewExampleData.1.BuildFilename "heroku" "build" = "event-example_build.txt" ∧
      NewExampleData.1.BuildFilename "confluence" "page-created" =
        "event-example_page-created.json" ∧
      NewExampleData.1.BuildFilename "appsignal" "marker" = "event-example_marker.json" ∧
      NewExampleData.1.BuildFilename "unknown" "x" = "event-example_x.json" :=
  ⟨(BuildFilename_extension NewExampleData.1 "heroku" "build").2.2.2.1.trans (by decide),
    (BuildFilename_extension NewExampleData.1 "confluence" "page-created").2.2.2.2.trans
      (by decide),
    ((BuildFilename_extension NewExampleData.1 "appsignal" "marker").1
      ⟨"json", ["marker", "exception", "performance"]⟩ (by decide) (by decide)).trans
      (by decide),
    ((BuildFilename_extension NewExampleData.1 "unknown" "x").2.2.1 (by decide)).trans
      (by decide)⟩

/-- C16: for every example table and every routing key, two different event
slugs get different file names from `BuildFilename`. -/
theorem BuildFilename_injective (data : ExampleData) (handlerKey : String)
    (slug₁ slug₂ : String) (hne : slug₁ ≠ slug₂) :
    data.BuildFilename handlerKey slug₁ ≠ data.BuildFilename handlerKey slug₂ := by
  obtain ⟨ext, hext⟩ := BuildFilename_shape data handlerKey
  rw [hext slug₁, hext slug₂]
  intro h
  have hd := congrArg String.data h
  simp only [String.data_append] at hd
  have h1 := List.append_cancel_right (List.append_cancel_right hd)
  have h2 := List.append_cancel_left h1
  exact hne (String.ext h2)

/-- C16 witness: the two Semaphore examples get different file names. -/
theorem BuildFilename_injective_witness :
    "build" ≠ "deploy" ∧
      NewExampleData.1.BuildFilename "semaphore" "build" ≠
        NewExampleData.1.BuildFilename "semaphore" "deploy" :=
  ⟨by decide, BuildFilename_injective NewExampleData.1 "semaphore" "build" "deploy" (by decide)⟩

/-! ## Icon URL and decoded message -/

/-- C17: the icon URL of the message `Normalize` returns is the configured one
when the lookup for the key "confluence" succeeds and empty when it fails, on
the success path and on the error path alike, and it is the same for every
decoder and every payload. -/
theorem Normalize_iconURL_from_config (u u' : Unmarshal) (cfg : Configuration)
    (b b' : Bytes) :
    (∀ url, cfg.GetAppIconURL "confluence" = .ok url → (Normalize u cfg b).1.IconURL = url) ∧
      (∀ e, cfg.GetAppIconURL "confluence" = .error e → (Normalize u cfg b).1.IconURL = "") ∧
      (Normalize u cfg b).1.IconURL = (Normalize u' cfg b').1.IconURL := by
  refine ⟨?_, ?_, ?_⟩
  · intro url h
    rw [Normalize_iconURL]
    simp only [HandlerKey, h]
  · intro e h
    rw [Normalize_iconURL]
    simp only [HandlerKey, h]
  · rw [Normalize_iconURL, Normalize_iconURL]

/-- C17 witness: with an icon configured, the message for a valid payload and
the one for an unparseable payload both carry it; without, the icon URL is
empty. -/
theorem Normalize_iconURL_from_config_witness :
    (Normalize (jsonFixture pageCreatedBytes pageCreatedMsg) iconConfig
        pageCreatedBytes).1.IconURL = "https://example.com/icon.png" ∧
      (Normalize (jsonFixture pageCreatedBytes pageCreatedMsg) iconConfig []).1.IconURL =
        "https://example.com/icon.png" ∧
      (Normalize (jsonFixture pageCreatedBytes pageCreatedMsg) noIconConfig
        pageCreatedBytes).1.IconURL = "" :=
  ⟨(Normalize_iconURL_from_config (jsonFixture pageCreatedBytes pageCreatedMsg)
      (jsonFixture pageCreatedBytes pageCreatedMsg) iconConfig pageCreatedBytes []).1 _ rfl,
    (Normalize_iconURL_from_config (jsonFixture pageCreatedBytes pageCreatedMsg)
      (jsonFixture pageCreatedBytes pageCreatedMsg) iconConfig [] []).1 _ rfl,
    (Normalize_iconURL_from_config (jsonFixture pageCreatedBytes pageCreatedMsg)
      (jsonFixture pageCreatedBytes pageCreatedMsg) noIconConfig pageCreatedBytes []).2.1 _ rfl⟩

/-- C18: for every input, with or without a decoding error, the message
`ConfluenceOutMessageFromBytes` returns has `Page` equal to `Comment.Parent` when
it is a comment event, and the page of the decoded payload when it is not; its
comment and its error are the decoder's. -/
theorem FromBytes_page_invariant (u : Unmarshal) (b : Bytes) :
    ((ConfluenceOutMessageFromBytes u b).1.IsComment = true →
        (ConfluenceOutMessageFromBytes u b).1.Page =
          (ConfluenceOutMessageFromBytes u b).1.Comment.Parent) ∧
      ((ConfluenceOutMessageFromBytes u b).1.IsComment = false →
        (ConfluenceOutMessageFromBytes u b).1.Page = (u b).1.Page) ∧
      (ConfluenceOutMessageFromBytes u b).1.Comment = (u b).1.Comment ∧
      (ConfluenceOutMessageFromBytes u b).2 = (u b).2 := by
  rw [FromBytes_eq]
  by_cases hc : (u b).1.IsComment = true
  · simp [hc, IsComment_setPage]
  · simp [hc]

/-- C18 witness: a decoder that reports an error after storing a comment, and a
page payload decoded without error. -/
theorem FromBytes_page_invariant_witness :
    (ConfluenceOutMessageFromBytes partialUnmarshal []).2 ≠ none ∧
      (ConfluenceOutMessageFromBytes partialUnmarshal []).1.Page =
        (ConfluenceOutMessageFromBytes partialUnmarshal []).1.Comment.Parent ∧
      (ConfluenceOutMessageFromBytes (jsonFixture pageCreatedBytes pageCreatedMsg)
        pageCreatedBytes).1.Page =
        (jsonFixture pageCreatedBytes pageCreatedMsg pageCreatedBytes).1.Page :=
  ⟨by decide,
    (FromBytes_page_invariant partialUnmarshal []).1 (by decide),
    (FromBytes_page_invariant (jsonFixture pageCreatedBytes pageCreatedMsg)
      pageCreatedBytes).2.1 (by
        rw [ConfluenceOutMessageFromBytes, jsonFixture_self]
        decide)⟩

/-! ## Runscope example message -/

/-- C19: the Runscope `ExampleMessage` reads the file of routing key "runscope"
and event slug "notification"; when reading fails it returns the empty message
with that error, whatever the normalizer; otherwise it returns what the
normalizer returns for the bytes read.  The built-in table has no entry for
"runscope", and the file name is "event-example_notification.json". -/
theorem Runscope_ExampleMessage_result (fs : Files)
    (normalize : Bytes → Message × Option GoError) (data : ExampleData) :
    data.ExampleMessageBytes fs "runscope" "notification" =
        fs.ReadFile (fs.Join [fs.DocsHandlersDir, "runscope",
          data.BuildFilename "runscope" "notification"]) ∧
      (∀ e, (data.ExampleMessageBytes fs "runscope" "notification").2 = some e →
        ∀ other : Bytes → Message × Option GoError,
          Runscope.ExampleMessage fs other data = (⟨"", "", []⟩, some e)) ∧
      ((data.ExampleMessageBytes fs "runscope" "notification").2 = none →
        Runscope.ExampleMessage fs normalize data =
          normalize (data.ExampleMessageBytes fs "runscope" "notification").1) ∧
      NewExampleData.1.Data.lookup "runscope" = none ∧
      NewExampleData.1.BuildFilename "runscope" "notification" =
        "event-example_notification.json" := by
  refine ⟨rfl, ?_, ?_, by decide, by decide⟩
  · intro e he other
    rcases hr : data.ExampleMessageBytes fs "runscope" "notification" with ⟨bytes, err⟩
    rw [hr] at he
    simp only at he
    subst he
    have hr' : data.ExampleMessageBytes fs Runscope.HandlerKey "notification" =
        (bytes, some e) := hr
    simp only [Runscope.ExampleMessage, hr']
  · intro hnone
    rcases hr : data.ExampleMessageBytes fs "runscope" "notification" with ⟨bytes, err⟩
    rw [hr] at hnone
    simp only at hnone
    subst hnone
    have hr' : data.ExampleMessageBytes fs Runscope.HandlerKey "notification" =
        (bytes, none) := hr
    simp only [Runscope.ExampleMessage, hr']

/-- C19 witness: without the file, the empty message and the read error come
back, also with a normalizer that never returns an empty message; with the
file, the normalizer's result for its content. -/
theorem Runscope_ExampleMessage_result_witness :
    Runscope.ExampleMessage noFiles rejectingNormalize NewExampleData.1 =
        (⟨"", "", []⟩,
          some ⟨"open docs/handlers/runscope/event-example_notification.json: no such file or directory"⟩) ∧
      Runscope.ExampleMessage oneFile sampleNormalize NewExampleData.1 =
        sampleNormalize pageCreatedBytes :=
  ⟨(Runscope_ExampleMessage_result noFiles sampleNormalize NewExampleData.1).2.1
      ⟨"open docs/handlers/runscope/event-example_notification.json: no such file or directory"⟩
      (by decide) rejectingNormalize,
    ((Runscope_ExampleMessage_result oneFile sampleNormalize NewExampleData.1).2.2.1
      (by decide)).trans (by
        have hb : (NewExampleData.1.ExampleMessageBytes oneFile "runscope" "notification").1 =
            pageCreatedBytes := by decide
        rw [hb])⟩

end Chathooks
